import Mathlib

/-!
# Verification of the reflection workflow agent

A shallow embedding of
`agentic_ai/agents/agent_framework/multi_agent/reflection_workflow_agent.py`
and of the relevant fragment of `agentic_ai/applications/backend.py`.

Modelling conventions:
* A `ChatMessage` is modelled by its role and text; the framework's list of
  content parts is modelled as a single text part per message, so the
  `contents` gathered by the reviewer become the list of the candidate
  messages' texts.
* The external collaborators (the Azure chat client and the pydantic
  structured-output decoder) are oracles passed as function arguments: the
  primary generation call is `Nat → List ChatMessage → Except String (List
  ChatMessage)` (the `Nat` is the index of the call, so the oracle can answer
  differently per call, like a real LLM), and the reviewer's provider call
  plus `ReviewDecision.model_validate_json` is
  `Nat → List ChatMessage → Except ReviewFailure ReviewDecision`.
* Python mutates the executor's dictionaries in place before an `await` can
  raise, so a handler returns its post-state in the error case too
  (`HResult.err` carries the state at the moment the exception is raised).
* The per-turn driver `runTurn` makes explicit the message loop that the
  `WorkflowBuilder` engine runs between the two executors, and records the
  observations the specification talks about: number of generation calls,
  number of review calls, the events emitted to the output stream, and the
  value of the refinement counter at the moment the pending entry is removed.
-/

set_option autoImplicit false

namespace ReflectionWorkflow

/-- Roles of the `agent_framework` `ChatMessage`. -/
inductive Role where
  | system
  | user
  | assistant
deriving DecidableEq, Repr

/-- A chat message, modelled by its role and text. -/
structure ChatMessage where
  role : Role
  text : String
deriving DecidableEq, Repr

/-- Structured output from ReviewerAgent for reliable routing
(`ReviewDecision` in the source). -/
structure ReviewDecision where
  approved : Bool
  feedback : String
deriving DecidableEq, Repr

/-- Request sent to PrimaryAgent with conversation history. -/
structure PrimaryAgentRequest where
  request_id : String
  user_prompt : String
  conversation_history : List ChatMessage
deriving DecidableEq, Repr

/-- Request sent from PrimaryAgent to ReviewerAgent. -/
structure ReviewRequest where
  request_id : String
  user_prompt : String
  conversation_history : List ChatMessage
  primary_agent_response : List ChatMessage
deriving DecidableEq, Repr

/-- Response from ReviewerAgent back to PrimaryAgent. -/
structure ReviewResponse where
  request_id : String
  approved : Bool
  feedback : String
deriving DecidableEq, Repr

/-! ## Python `dict` operations, modelled on association lists

The executor's `_pending_requests` and `_refinement_counts` are Python
dictionaries; we model them as association lists with unique keys
(lookup, insert-or-replace and `pop`). -/

/-- Lookup, the `m[k]` / `m.get(k)` of a Python dictionary, on an association list. -/
def mlookup {β : Type} : List (String × β) → String → Option β
  | [], _ => none
  | (k2, v) :: rest, k => if k2 = k then some v else mlookup rest k

/-- Update, the `m[k] = v` of a Python dictionary, on an association list:
replace the first binding of `k`,
or append a new one. -/
def minsert {β : Type} : List (String × β) → String → β → List (String × β)
  | [], k, v => [(k, v)]
  | (k2, v2) :: rest, k, v =>
    if k2 = k then (k2, v) :: rest else (k2, v2) :: minsert rest k v

/-- Removal, the `m.pop(k, None)` of a Python dictionary, on an association list:
drop the first binding of `k`. -/
def merase {β : Type} : List (String × β) → String → List (String × β)
  | [], _ => []
  | (k2, v2) :: rest, k =>
    if k2 = k then rest else (k2, v2) :: merase rest k

/-! ## PrimaryAgentExecutor -/

/-- State owned by a `PrimaryAgentExecutor`: the refinement cap and the two
per-request dictionaries. -/
structure PrimaryState where
  max_refinements : Nat
  pending_requests : List (String × (PrimaryAgentRequest × List ChatMessage))
  refinement_counts : List (String × Nat)
deriving DecidableEq, Repr

/-- Errors a primary-agent handler can raise. -/
inductive HandlerError where
  | unknownRequestId (request_id : String)
  | providerFailure (msg : String)
deriving DecidableEq, Repr

/-- Result of a primary-agent handler.  Python mutates the executor's
dictionaries in place, so the error case carries the state at the moment the
exception was raised. -/
inductive HResult (α : Type) where
  | ok (st : PrimaryState) (out : α)
  | err (st : PrimaryState) (e : HandlerError)
deriving DecidableEq, Repr

/-- The fixed system preamble of the primary agent. -/
def primarySystemText : String :=
  "You are a helpful customer support assistant for Contoso company. "
    ++ "You can help with billing, promotions, security, account information, and other customer inquiries. "
    ++ "Use the available MCP tools to look up customer information, billing details, promotions, and security settings. "
    ++ "When a customer provides an ID or asks about their account, use the tools to retrieve accurate, up-to-date information. "
    ++ "Always be helpful, professional, and provide detailed information when available."

/-- The message list built by `handle_user_request`:
system preamble, then the history snapshot, then the user prompt. -/
def buildInitialMessages (request : PrimaryAgentRequest) : List ChatMessage :=
  [⟨Role.system, primarySystemText⟩]
    ++ request.conversation_history
    ++ [⟨Role.user, request.user_prompt⟩]

/-- The feedback directive appended to the working buffer on a retry. -/
def feedbackMessage (feedback : String) : ChatMessage :=
  ⟨Role.system,
    "REVIEWER FEEDBACK: " ++ feedback
      ++ "\n\nPlease improve your response based on this feedback."⟩

/-- The handler `PrimaryAgentExecutor.handle_user_request`: build the initial working
buffer, call the completion provider, store `(request, buffer + candidate)`
in the pending table, initialise the refinement counter, and produce the
`ReviewRequest` that is then sent to the reviewer. -/
def handle_user_request
    (gen : List ChatMessage → Except String (List ChatMessage))
    (st : PrimaryState) (request : PrimaryAgentRequest) : HResult ReviewRequest :=
  let messages := buildInitialMessages request
  match gen messages with
  | .error e => .err st (.providerFailure e)
  | .ok respMsgs =>
    let all_messages := messages ++ respMsgs
    let pending1 := minsert st.pending_requests request.request_id (request, all_messages)
    let counts1 :=
      if (mlookup st.refinement_counts request.request_id).isSome
      then st.refinement_counts
      else minsert st.refinement_counts request.request_id 0
    .ok { st with pending_requests := pending1, refinement_counts := counts1 }
      { request_id := request.request_id
        user_prompt := request.user_prompt
        conversation_history := request.conversation_history
        primary_agent_response := respMsgs }

/-- The handler `PrimaryAgentExecutor.handle_review_feedback`: on an unknown request id
raise; otherwise pop the pending entry; if approved, or if the refinement
counter has reached the cap, also pop the counter and terminate; otherwise
increment the counter, extend the working buffer with the feedback directive
and the restated prompt, call the provider again, re-store the pending entry
and produce the next `ReviewRequest`. -/
def handle_review_feedback
    (gen : List ChatMessage → Except String (List ChatMessage))
    (st : PrimaryState) (review : ReviewResponse) : HResult (Option ReviewRequest) :=
  match mlookup st.pending_requests review.request_id with
  | none => .err st (.unknownRequestId review.request_id)
  | some (original_request, messages) =>
    let pending1 := merase st.pending_requests review.request_id
    if review.approved then
      .ok { st with pending_requests := pending1
                    refinement_counts := merase st.refinement_counts review.request_id } none
    else
      let current_count := (mlookup st.refinement_counts review.request_id).getD 0
      if st.max_refinements ≤ current_count then
        .ok { st with pending_requests := pending1
                      refinement_counts := merase st.refinement_counts review.request_id } none
      else
        let counts1 := minsert st.refinement_counts review.request_id (current_count + 1)
        let messages1 := messages
          ++ [feedbackMessage review.feedback, ⟨Role.user, original_request.user_prompt⟩]
        match gen messages1 with
        | .error e =>
          .err { st with pending_requests := pending1, refinement_counts := counts1 }
            (.providerFailure e)
        | .ok respMsgs =>
          let messages2 := messages1 ++ respMsgs
          .ok { st with
                  pending_requests := minsert pending1 review.request_id (original_request, messages2)
                  refinement_counts := counts1 }
            (some { request_id := review.request_id
                    user_prompt := original_request.user_prompt
                    conversation_history := original_request.conversation_history
                    primary_agent_response := respMsgs })

/-! ## ReviewerAgentExecutor -/

/-- The reviewer's provider call plus pydantic decoding can fail two ways:
a provider error, or a last message whose text is not a valid structured
verdict (`ReviewDecision.model_validate_json` raises). -/
inductive ReviewFailure where
  | providerFailure (msg : String)
  | malformedVerdict (raw : String)
deriving DecidableEq, Repr

/-- The fixed review rubric of the reviewer agent. -/
def reviewerRubricText : String :=
  "You are a quality assurance reviewer for customer support responses. "
    ++ "Review the customer support agent's response for:\n"
    ++ "1. Accuracy of information\n"
    ++ "2. Completeness of answer\n"
    ++ "3. Professional tone\n"
    ++ "4. Proper use of available tools\n"
    ++ "5. Clarity and helpfulness\n\n"
    ++ "Be reasonable in your evaluation. If the response is professional, addresses the customer's question, "
    ++ "and provides useful information, APPROVE it. Only reject if there are significant issues.\n\n"
    ++ "Respond with a structured JSON containing:\n"
    ++ "- approved: true if response meets quality standards (be reasonable), false only for major issues\n"
    ++ "- feedback: constructive feedback (if not approved) or brief approval note"

/-- The message list built by `review_response`: rubric, history, user
prompt, the candidate, and the explicit review instruction. -/
def buildReviewMessages (request : ReviewRequest) : List ChatMessage :=
  [⟨Role.system, reviewerRubricText⟩]
    ++ request.conversation_history
    ++ [⟨Role.user, request.user_prompt⟩]
    ++ request.primary_agent_response
    ++ [⟨Role.user, "Please review the agent's response above and provide your assessment."⟩]

/-- The content parts the reviewer gathers from the candidate messages
(`contents.extend(message.contents)`); one text part per message. -/
def candidateContents (request : ReviewRequest) : List String :=
  request.primary_agent_response.map (fun m => m.text)

/-- One output of the reviewer handler, in order: an `AgentRunUpdateEvent`
added to the event stream, or the `ReviewResponse` sent back to the primary
agent. -/
inductive ReviewerOutput where
  | emit (contents : List String)
  | respond (response : ReviewResponse)
deriving DecidableEq, Repr

/-- The handler `ReviewerAgentExecutor.review_response`: build the rubric context, obtain
the structured verdict from the provider (`getVerdict` bundles the chat-client
call and `ReviewDecision.model_validate_json`), emit the candidate contents to
the event stream when approved, and always send the `ReviewResponse` back —
after the emission when there is one. -/
def review_response
    (getVerdict : List ChatMessage → Except ReviewFailure ReviewDecision)
    (request : ReviewRequest) : Except ReviewFailure (List ReviewerOutput) :=
  let messages := buildReviewMessages request
  match getVerdict messages with
  | .error e => .error e
  | .ok decision =>
    let response : ReviewResponse :=
      { request_id := request.request_id
        approved := decision.approved
        feedback := decision.feedback }
    if decision.approved then
      .ok [.emit (candidateContents request), .respond response]
    else
      .ok [.respond response]

/-- Events among the reviewer's ordered outputs. -/
def emittedOf (outs : List ReviewerOutput) : List (List String) :=
  outs.filterMap (fun o => match o with | .emit c => some c | .respond _ => none)

/-- The (first) `ReviewResponse` among the reviewer's ordered outputs. -/
def responseOf (outs : List ReviewerOutput) : Option ReviewResponse :=
  (outs.filterMap (fun o => match o with | .respond r => some r | .emit _ => none)).head?

/-! ## The per-turn workflow run -/

/-- Why a workflow run raised. -/
inductive TurnError where
  | reviewFailed (e : ReviewFailure)
  | generationFailed (e : HandlerError)
  | missingResponse
  | engineStalled
deriving DecidableEq, Repr

/-- Terminal status of one turn. -/
inductive TurnStatus where
  | approved
  | forcedApproved
  | failed (e : TurnError)
  | outOfFuel
deriving DecidableEq, Repr

/-- Observations of one workflow run: the primary executor's final state, how
many generation and review calls the providers received, the events emitted
to the output stream (each a list of content texts), the refinement counter's
value at the moment the pending entry was removed, and the terminal status. -/
structure TurnOutcome where
  state : PrimaryState
  genCalls : Nat
  reviewCalls : Nat
  events : List (List String)
  finalCount : Option Nat
  status : TurnStatus
deriving DecidableEq, Repr

/-- The reviewer-and-primary message loop that the workflow engine runs after the
first candidate is produced.  `fuel` bounds the number of review rounds (the
refinement cap makes any fuel above `max_refinements + 1` sufficient). -/
def runReviewLoop
    (gen : Nat → List ChatMessage → Except String (List ChatMessage))
    (verdict : Nat → List ChatMessage → Except ReviewFailure ReviewDecision) :
    Nat → PrimaryState → ReviewRequest → Nat → Nat → List (List String) → TurnOutcome
  | 0, st, _, genCalls, reviewCalls, events =>
    { state := st, genCalls := genCalls, reviewCalls := reviewCalls, events := events
      finalCount := none, status := .outOfFuel }
  | fuel + 1, st, request, genCalls, reviewCalls, events =>
    match review_response (verdict reviewCalls) request with
    | .error e =>
      { state := st, genCalls := genCalls, reviewCalls := reviewCalls + 1, events := events
        finalCount := none, status := .failed (.reviewFailed e) }
    | .ok outs =>
      let events1 := events ++ emittedOf outs
      match responseOf outs with
      | none =>
        { state := st, genCalls := genCalls, reviewCalls := reviewCalls + 1, events := events1
          finalCount := none, status := .failed .missingResponse }
      | some resp =>
        match handle_review_feedback (gen genCalls) st resp with
        | .err st1 e =>
          let genCalls1 := match e with
            | .providerFailure _ => genCalls + 1
            | _ => genCalls
          { state := st1, genCalls := genCalls1, reviewCalls := reviewCalls + 1
            events := events1, finalCount := none, status := .failed (.generationFailed e) }
        | .ok st1 none =>
          { state := st1, genCalls := genCalls, reviewCalls := reviewCalls + 1
            events := events1
            finalCount := some ((mlookup st.refinement_counts resp.request_id).getD 0)
            status := if resp.approved then .approved else .forcedApproved }
        | .ok st1 (some request1) =>
          runReviewLoop gen verdict fuel st1 request1 (genCalls + 1) (reviewCalls + 1) events1

/-- One full turn: `handle_user_request` produces the first candidate, then
the review loop runs to a terminal state. -/
def runTurn
    (gen : Nat → List ChatMessage → Except String (List ChatMessage))
    (verdict : Nat → List ChatMessage → Except ReviewFailure ReviewDecision)
    (fuel : Nat) (st : PrimaryState) (request : PrimaryAgentRequest) : TurnOutcome :=
  match handle_user_request (gen 0) st request with
  | .err st1 e =>
    { state := st1, genCalls := 1, reviewCalls := 0, events := []
      finalCount := none, status := .failed (.generationFailed e) }
  | .ok st1 reviewReq => runReviewLoop gen verdict fuel st1 reviewReq 1 0 []

/-- A freshly constructed `PrimaryAgentExecutor`: empty pending table and
counter map. -/
def initState (max_refinements : Nat) : PrimaryState :=
  { max_refinements := max_refinements, pending_requests := [], refinement_counts := [] }

/-! ## Streaming reconciliation and the session layer

`Agent._run_workflow_streaming` walks the event stream, accumulates every
non-empty content text of each `AgentRunUpdateEvent` into `response_text`
(broadcasting it as an `agent_token` frame), and — only when the accumulated
text is non-empty — broadcasts a `final_result` frame.  `Agent.chat_async`
then appends the `(user, prompt)` and `(assistant, response_text)` pair to the
conversation history; an exception propagates before the append.  The
`ws_chat` endpoint of `backend.py` broadcasts a `done` frame on success and an
`error` frame when the turn raised. -/

/-- Frames broadcast over the WebSocket. -/
inductive Frame where
  | orchestratorPlan (content : String)
  | agentToken (content : String)
  | finalResult (content : String)
  | orchestratorResult (content : String)
  | errorFrame (message : String)
  | doneFrame
deriving DecidableEq, Repr

/-- The `response_text` accumulation over the content parts of one event:
every non-empty text, concatenated in order. -/
def extractText (contents : List String) : String :=
  (contents.filter (fun s => ¬ s.isEmpty)).foldl (fun acc s => acc ++ s) ""

/-- The `response_text` accumulation over the whole event stream. -/
def streamText (events : List (List String)) : String :=
  extractText events.flatten

/-- The `agent_token` frames broadcast while walking the event stream. -/
def tokenFrames (events : List (List String)) : List Frame :=
  (events.map (fun cs => (cs.filter (fun s => ¬ s.isEmpty)).map Frame.agentToken)).flatten

/-- The opening orchestrator frame of `_run_workflow_streaming`. -/
def orchestratorPlanText : String :=
  "Workflow Reflection Pattern Starting\n\nInitiating PrimaryAgent → ReviewerAgent workflow for quality-assured responses..."

/-- The closing orchestrator frame of `_run_workflow_streaming`. -/
def orchestratorResultText : String :=
  "Workflow Complete\n\nQuality-assured response delivered through PrimaryAgent → ReviewerAgent workflow!"

/-- Result of one `chat_async` call in streaming mode: the returned text (or
the propagated exception), the conversation history after the call, and the
frames broadcast to the WebSocket during the call. -/
structure ChatOutcome where
  result : Except TurnError String
  history : List ChatMessage
  frames : List Frame
deriving Repr

/-- The success path of `chat_async`: return the accumulated text, broadcast
`final_result` only when it is non-empty, and append exactly one
`(user, prompt)`, `(assistant, response_text)` pair to the history. -/
def chatSuccess (history : List ChatMessage) (prompt : String) (o : TurnOutcome)
    (base : List Frame) : ChatOutcome :=
  let response_text := streamText o.events
  { result := .ok response_text
    history := history ++ [⟨Role.user, prompt⟩, ⟨Role.assistant, response_text⟩]
    frames := base
      ++ (if response_text.isEmpty then []
          else [Frame.finalResult response_text,
                Frame.orchestratorResult orchestratorResultText]) }

/-- The method `Agent.chat_async` in streaming mode: run the workflow on a fresh
executor state with a snapshot of the history; on a terminal run append the
history pair and broadcast, on an exception leave the history unchanged. -/
def chat_async
    (gen : Nat → List ChatMessage → Except String (List ChatMessage))
    (verdict : Nat → List ChatMessage → Except ReviewFailure ReviewDecision)
    (fuel max_refinements : Nat) (history : List ChatMessage)
    (request_id prompt : String) : ChatOutcome :=
  let request : PrimaryAgentRequest :=
    { request_id := request_id, user_prompt := prompt, conversation_history := history }
  let o := runTurn gen verdict fuel (initState max_refinements) request
  let base := Frame.orchestratorPlan orchestratorPlanText :: tokenFrames o.events
  match o.status with
  | .approved => chatSuccess history prompt o base
  | .forcedApproved => chatSuccess history prompt o base
  | .failed e => { result := .error e, history := history, frames := base }
  | .outOfFuel => { result := .error .engineStalled, history := history, frames := base }

/-- The error message `ws_chat` puts into its error frame (`str(e)`). -/
def describeTurnError : TurnError → String
  | .reviewFailed (.providerFailure m) => m
  | .reviewFailed (.malformedVerdict raw) => "Invalid JSON: " ++ raw
  | .generationFailed (.providerFailure m) => m
  | .generationFailed (.unknownRequestId rid) => "Unknown request ID in review: " ++ rid
  | .missingResponse => "workflow produced no review response"
  | .engineStalled => "workflow stalled"

/-- The tail of the `ws_chat` broadcast: a `done` frame after a successful
turn, an `error` frame carrying the exception text after a failed one. -/
def ws_chat_frames (c : ChatOutcome) : List Frame :=
  match c.result with
  | .ok _ => c.frames ++ [Frame.doneFrame]
  | .error e => c.frames ++ [Frame.errorFrame (describeTurnError e)]

/-! ## Basic lemmas about the association-list operations -/

@[simp] theorem mlookup_nil {β : Type} (k : String) :
    mlookup ([] : List (String × β)) k = none := rfl

@[simp] theorem mlookup_cons {β : Type} (k2 k : String) (v : β) (rest : List (String × β)) :
    mlookup ((k2, v) :: rest) k = if k2 = k then some v else mlookup rest k := rfl

@[simp] theorem minsert_nil {β : Type} (k : String) (v : β) :
    minsert ([] : List (String × β)) k v = [(k, v)] := rfl

@[simp] theorem minsert_cons {β : Type} (k2 k : String) (v2 v : β) (rest : List (String × β)) :
    minsert ((k2, v2) :: rest) k v
      = if k2 = k then (k2, v) :: rest else (k2, v2) :: minsert rest k v := rfl

@[simp] theorem merase_nil {β : Type} (k : String) :
    merase ([] : List (String × β)) k = [] := rfl

@[simp] theorem merase_cons {β : Type} (k2 k : String) (v2 : β) (rest : List (String × β)) :
    merase ((k2, v2) :: rest) k = if k2 = k then rest else (k2, v2) :: merase rest k := rfl

theorem mlookup_minsert_self {β : Type} (m : List (String × β)) (k : String) (v : β) :
    mlookup (minsert m k v) k = some v := by
  induction m with
  | nil => simp
  | cons hd tl ih =>
    obtain ⟨k2, v2⟩ := hd
    by_cases h : k2 = k <;> simp [h, ih]

theorem mlookup_eq_none_of_not_mem {β : Type} (m : List (String × β)) (k : String)
    (h : k ∉ m.map Prod.fst) : mlookup m k = none := by
  induction m with
  | nil => simp
  | cons hd tl ih =>
    obtain ⟨k2, v2⟩ := hd
    simp only [List.map_cons, List.mem_cons, not_or] at h
    have hne : ¬ k2 = k := fun hk => h.1 hk.symm
    simp [hne, ih h.2]

theorem mlookup_merase_self {β : Type} (m : List (String × β)) (k : String)
    (h : (m.map Prod.fst).Nodup) : mlookup (merase m k) k = none := by
  induction m with
  | nil => simp
  | cons hd tl ih =>
    obtain ⟨k2, v2⟩ := hd
    simp only [List.map_cons, List.nodup_cons] at h
    by_cases hk : k2 = k
    · subst hk
      simpa using mlookup_eq_none_of_not_mem tl k2 h.1
    · simp [hk, ih h.2]

/-! ## The shape of a successful review -/

/-- The handler `review_response` unfolded over its verdict oracle. -/
theorem review_response_eq
    (getVerdict : List ChatMessage → Except ReviewFailure ReviewDecision)
    (request : ReviewRequest) :
    review_response getVerdict request
      = match getVerdict (buildReviewMessages request) with
        | .error e => .error e
        | .ok d =>
          if d.approved then
            .ok [ReviewerOutput.emit (candidateContents request),
                 ReviewerOutput.respond ⟨request.request_id, d.approved, d.feedback⟩]
          else
            .ok [ReviewerOutput.respond ⟨request.request_id, d.approved, d.feedback⟩] := rfl

/-- A successful `review_response` is fully determined by the decoded
verdict: on approval the candidate contents are emitted first and the
acknowledgement follows; on rejection only the acknowledgement is sent. -/
theorem review_response_shape
    (getVerdict : List ChatMessage → Except ReviewFailure ReviewDecision)
    (request : ReviewRequest) (outs : List ReviewerOutput)
    (h : review_response getVerdict request = .ok outs) :
    ∃ d, getVerdict (buildReviewMessages request) = .ok d ∧
      outs = (if d.approved then
                [ReviewerOutput.emit (candidateContents request),
                 ReviewerOutput.respond ⟨request.request_id, d.approved, d.feedback⟩]
              else
                [ReviewerOutput.respond ⟨request.request_id, d.approved, d.feedback⟩]) := by
  rw [review_response_eq] at h
  cases hv : getVerdict (buildReviewMessages request) with
  | error e => rw [hv] at h; cases h
  | ok d =>
    rw [hv] at h
    dsimp only at h
    refine ⟨d, rfl, ?_⟩
    by_cases hd : d.approved = true
    · simp only [hd, if_true] at h ⊢
      exact (Except.ok.inj h).symm
    · simp only [Bool.not_eq_true] at hd
      simp only [hd, Bool.false_eq_true, if_false] at h ⊢
      exact (Except.ok.inj h).symm

@[simp] theorem emittedOf_approved (c : List String) (r : ReviewResponse) :
    emittedOf [ReviewerOutput.emit c, ReviewerOutput.respond r] = [c] := rfl

@[simp] theorem emittedOf_rejected (r : ReviewResponse) :
    emittedOf [ReviewerOutput.respond r] = [] := rfl

@[simp] theorem responseOf_approved (c : List String) (r : ReviewResponse) :
    responseOf [ReviewerOutput.emit c, ReviewerOutput.respond r] = some r := rfl

@[simp] theorem responseOf_rejected (r : ReviewResponse) :
    responseOf [ReviewerOutput.respond r] = some r := rfl

/-! ## The primary-agent handlers, unfolded -/

/-- The handler `handle_user_request` unfolded over its provider oracle. -/
theorem handle_user_request_eq
    (gen : List ChatMessage → Except String (List ChatMessage))
    (st : PrimaryState) (request : PrimaryAgentRequest) :
    handle_user_request gen st request
      = match gen (buildInitialMessages request) with
        | .error e => .err st (.providerFailure e)
        | .ok respMsgs =>
          .ok { st with
                  pending_requests := minsert st.pending_requests request.request_id
                    (request, buildInitialMessages request ++ respMsgs)
                  refinement_counts :=
                    if (mlookup st.refinement_counts request.request_id).isSome
                    then st.refinement_counts
                    else minsert st.refinement_counts request.request_id 0 }
            ⟨request.request_id, request.user_prompt, request.conversation_history, respMsgs⟩ := rfl

/-- The handler `handle_review_feedback` unfolded over its provider oracle. -/
theorem handle_review_feedback_eq
    (gen : List ChatMessage → Except String (List ChatMessage))
    (st : PrimaryState) (review : ReviewResponse) :
    handle_review_feedback gen st review
      = match mlookup st.pending_requests review.request_id with
        | none => .err st (.unknownRequestId review.request_id)
        | some (original_request, messages) =>
          if review.approved then
            .ok { st with
                    pending_requests := merase st.pending_requests review.request_id
                    refinement_counts := merase st.refinement_counts review.request_id } none
          else if st.max_refinements ≤ (mlookup st.refinement_counts review.request_id).getD 0 then
            .ok { st with
                    pending_requests := merase st.pending_requests review.request_id
                    refinement_counts := merase st.refinement_counts review.request_id } none
          else
            match gen (messages
                ++ [feedbackMessage review.feedback, ⟨Role.user, original_request.user_prompt⟩]) with
            | .error e =>
              .err { st with
                       pending_requests := merase st.pending_requests review.request_id
                       refinement_counts := minsert st.refinement_counts review.request_id
                         ((mlookup st.refinement_counts review.request_id).getD 0 + 1) }
                (.providerFailure e)
            | .ok respMsgs =>
              .ok { st with
                      pending_requests := minsert (merase st.pending_requests review.request_id)
                        review.request_id
                        (original_request,
                          messages
                            ++ [feedbackMessage review.feedback,
                                ⟨Role.user, original_request.user_prompt⟩]
                            ++ respMsgs)
                      refinement_counts := minsert st.refinement_counts review.request_id
                        ((mlookup st.refinement_counts review.request_id).getD 0 + 1) }
                (some ⟨review.request_id, original_request.user_prompt,
                       original_request.conversation_history, respMsgs⟩) := rfl

/-- The handler `handle_user_request` on a fresh executor state, when the provider
succeeds. -/
theorem handle_user_request_init
    (gen : List ChatMessage → Except String (List ChatMessage))
    (max : Nat) (request : PrimaryAgentRequest) (cand : List ChatMessage)
    (hg : gen (buildInitialMessages request) = .ok cand) :
    handle_user_request gen (initState max) request
      = .ok ⟨max, [(request.request_id, (request, buildInitialMessages request ++ cand))],
             [(request.request_id, 0)]⟩
          ⟨request.request_id, request.user_prompt, request.conversation_history, cand⟩ := by
  rw [handle_user_request_eq, hg]
  simp [initState]

/-- The handler `handle_review_feedback` on a singleton pending table, approving
verdict. -/
theorem handle_review_feedback_approved
    (gen : List ChatMessage → Except String (List ChatMessage))
    (max : Nat) (rid : String) (orig : PrimaryAgentRequest) (buf : List ChatMessage)
    (cm : List (String × Nat)) (r : ReviewResponse)
    (hid : r.request_id = rid) (hap : r.approved = true) :
    handle_review_feedback gen ⟨max, [(rid, (orig, buf))], cm⟩ r
      = .ok ⟨max, [], merase cm rid⟩ none := by
  rw [handle_review_feedback_eq]
  simp [hid, hap]

/-- The handler `handle_review_feedback` on a singleton state, rejecting verdict at the
refinement cap: forced approval, both entries removed, no provider call. -/
theorem handle_review_feedback_capped
    (gen : List ChatMessage → Except String (List ChatMessage))
    (max : Nat) (rid : String) (orig : PrimaryAgentRequest) (buf : List ChatMessage)
    (j : Nat) (r : ReviewResponse)
    (hid : r.request_id = rid) (hap : r.approved = false) (hle : max ≤ j) :
    handle_review_feedback gen ⟨max, [(rid, (orig, buf))], [(rid, j)]⟩ r
      = .ok ⟨max, [], []⟩ none := by
  rw [handle_review_feedback_eq]
  simp [hid, hap, hle]

/-- The handler `handle_review_feedback` on a singleton state, rejecting verdict below
the cap, provider succeeding: the counter is incremented, the working buffer
is extended with the feedback directive, the restated prompt and the new
candidate, and a new review request is produced. -/
theorem handle_review_feedback_refine
    (gen : List ChatMessage → Except String (List ChatMessage))
    (max : Nat) (rid : String) (orig : PrimaryAgentRequest) (buf : List ChatMessage)
    (j : Nat) (r : ReviewResponse) (cand : List ChatMessage)
    (hid : r.request_id = rid) (hap : r.approved = false) (hlt : ¬ max ≤ j)
    (hg : gen (buf ++ [feedbackMessage r.feedback, ⟨Role.user, orig.user_prompt⟩]) = .ok cand) :
    handle_review_feedback gen ⟨max, [(rid, (orig, buf))], [(rid, j)]⟩ r
      = .ok ⟨max,
             [(rid, (orig, buf ++ [feedbackMessage r.feedback, ⟨Role.user, orig.user_prompt⟩]
                             ++ cand))],
             [(rid, j + 1)]⟩
          (some ⟨rid, orig.user_prompt, orig.conversation_history, cand⟩) := by
  rw [handle_review_feedback_eq]
  simp [hid, hap, hlt, hg]

/-- The handler `handle_review_feedback` on a singleton state, rejecting verdict below
the cap, provider failing: the pending entry is already popped and the
counter already incremented when the exception propagates. -/
theorem handle_review_feedback_refine_fail
    (gen : List ChatMessage → Except String (List ChatMessage))
    (max : Nat) (rid : String) (orig : PrimaryAgentRequest) (buf : List ChatMessage)
    (j : Nat) (r : ReviewResponse) (e : String)
    (hid : r.request_id = rid) (hap : r.approved = false) (hlt : ¬ max ≤ j)
    (hg : gen (buf ++ [feedbackMessage r.feedback, ⟨Role.user, orig.user_prompt⟩]) = .error e) :
    handle_review_feedback gen ⟨max, [(rid, (orig, buf))], [(rid, j)]⟩ r
      = .err ⟨max, [], [(rid, j + 1)]⟩ (.providerFailure e) := by
  rw [handle_review_feedback_eq]
  simp [hid, hap, hlt, hg]

/-! ## Stepping the review loop on singleton states -/

theorem runReviewLoop_zero
    (gen : Nat → List ChatMessage → Except String (List ChatMessage))
    (verdict : Nat → List ChatMessage → Except ReviewFailure ReviewDecision)
    (st : PrimaryState) (request : ReviewRequest) (gk rk : Nat)
    (events : List (List String)) :
    runReviewLoop gen verdict 0 st request gk rk events
      = ⟨st, gk, rk, events, none, .outOfFuel⟩ := rfl

theorem runReviewLoop_succ
    (gen : Nat → List ChatMessage → Except String (List ChatMessage))
    (verdict : Nat → List ChatMessage → Except ReviewFailure ReviewDecision)
    (fuel : Nat) (st : PrimaryState) (request : ReviewRequest) (gk rk : Nat)
    (events : List (List String)) :
    runReviewLoop gen verdict (fuel + 1) st request gk rk events
      = match review_response (verdict rk) request with
        | .error e => ⟨st, gk, rk + 1, events, none, .failed (.reviewFailed e)⟩
        | .ok outs =>
          match responseOf outs with
          | none =>
            ⟨st, gk, rk + 1, events ++ emittedOf outs, none, .failed .missingResponse⟩
          | some resp =>
            match handle_review_feedback (gen gk) st resp with
            | .err st1 e =>
              ⟨st1, (match e with | .providerFailure _ => gk + 1 | _ => gk), rk + 1,
               events ++ emittedOf outs, none, .failed (.generationFailed e)⟩
            | .ok st1 none =>
              ⟨st1, gk, rk + 1, events ++ emittedOf outs,
               some ((mlookup st.refinement_counts resp.request_id).getD 0),
               if resp.approved then .approved else .forcedApproved⟩
            | .ok st1 (some request1) =>
              runReviewLoop gen verdict fuel st1 request1 (gk + 1) (rk + 1)
                (events ++ emittedOf outs) := rfl

/-- One loop round with an approving verdict: terminal `approved`, candidate
contents emitted, both table entries removed, the counter read at removal. -/
theorem runReviewLoop_step_approved
    (gen : Nat → List ChatMessage → Except String (List ChatMessage))
    (verdict : Nat → List ChatMessage → Except ReviewFailure ReviewDecision)
    (fuel max : Nat) (rid : String) (orig : PrimaryAgentRequest)
    (buf : List ChatMessage) (j : Nat) (request : ReviewRequest) (gk rk : Nat)
    (acc : List (List String)) (d : ReviewDecision)
    (hvd : verdict rk (buildReviewMessages request) = .ok d)
    (hd : d.approved = true) (hreq : request.request_id = rid) :
    runReviewLoop gen verdict (fuel + 1) ⟨max, [(rid, (orig, buf))], [(rid, j)]⟩
        request gk rk acc
      = ⟨⟨max, [], []⟩, gk, rk + 1, acc ++ [candidateContents request], some j, .approved⟩ := by
  rw [runReviewLoop_succ, review_response_eq, hvd]
  dsimp only
  rw [if_pos hd]
  dsimp only
  rw [responseOf_approved]
  dsimp only
  rw [handle_review_feedback_approved (gen gk) max rid orig buf [(rid, j)]
        ⟨request.request_id, d.approved, d.feedback⟩ hreq hd]
  simp [hreq, hd]

/-- One loop round with a rejecting verdict at the cap: terminal
`forcedApproved`, nothing emitted, both table entries removed, no further
generation call. -/
theorem runReviewLoop_step_capped
    (gen : Nat → List ChatMessage → Except String (List ChatMessage))
    (verdict : Nat → List ChatMessage → Except ReviewFailure ReviewDecision)
    (fuel max : Nat) (rid : String) (orig : PrimaryAgentRequest)
    (buf : List ChatMessage) (j : Nat) (request : ReviewRequest) (gk rk : Nat)
    (acc : List (List String)) (d : ReviewDecision)
    (hvd : verdict rk (buildReviewMessages request) = .ok d)
    (hd : d.approved = false) (hreq : request.request_id = rid) (hle : max ≤ j) :
    runReviewLoop gen verdict (fuel + 1) ⟨max, [(rid, (orig, buf))], [(rid, j)]⟩
        request gk rk acc
      = ⟨⟨max, [], []⟩, gk, rk + 1, acc, some j, .forcedApproved⟩ := by
  rw [runReviewLoop_succ, review_response_eq, hvd]
  dsimp only
  rw [if_neg (by simp [hd])]
  dsimp only
  rw [responseOf_rejected]
  dsimp only
  rw [handle_review_feedback_capped (gen gk) max rid orig buf j
        ⟨request.request_id, d.approved, d.feedback⟩ hreq hd hle]
  simp [hreq, hd]

/-- One loop round with a rejecting verdict below the cap and a successful
regeneration: the loop recurses with the incremented counter, the extended
buffer and the fresh candidate. -/
theorem runReviewLoop_step_refine
    (gen : Nat → List ChatMessage → Except String (List ChatMessage))
    (verdict : Nat → List ChatMessage → Except ReviewFailure ReviewDecision)
    (fuel max : Nat) (rid : String) (orig : PrimaryAgentRequest)
    (buf : List ChatMessage) (j : Nat) (request : ReviewRequest) (gk rk : Nat)
    (acc : List (List String)) (d : ReviewDecision) (cand : List ChatMessage)
    (hvd : verdict rk (buildReviewMessages request) = .ok d)
    (hd : d.approved = false) (hreq : request.request_id = rid) (hlt : ¬ max ≤ j)
    (hg : gen gk (buf ++ [feedbackMessage d.feedback, ⟨Role.user, orig.user_prompt⟩])
            = .ok cand) :
    runReviewLoop gen verdict (fuel + 1) ⟨max, [(rid, (orig, buf))], [(rid, j)]⟩
        request gk rk acc
      = runReviewLoop gen verdict fuel
          ⟨max,
           [(rid, (orig, buf ++ [feedbackMessage d.feedback, ⟨Role.user, orig.user_prompt⟩]
                           ++ cand))],
           [(rid, j + 1)]⟩
          ⟨rid, orig.user_prompt, orig.conversation_history, cand⟩
          (gk + 1) (rk + 1) acc := by
  rw [runReviewLoop_succ, review_response_eq, hvd]
  dsimp only
  rw [if_neg (by simp [hd])]
  dsimp only
  rw [responseOf_rejected]
  dsimp only
  rw [handle_review_feedback_refine (gen gk) max rid orig buf j
        ⟨request.request_id, d.approved, d.feedback⟩ cand hreq hd hlt hg]
  simp

/-- One loop round with a rejecting verdict below the cap and a failing
regeneration: the turn fails with the pending entry already popped and the
counter already incremented. -/
theorem runReviewLoop_step_refine_fail
    (gen : Nat → List ChatMessage → Except String (List ChatMessage))
    (verdict : Nat → List ChatMessage → Except ReviewFailure ReviewDecision)
    (fuel max : Nat) (rid : String) (orig : PrimaryAgentRequest)
    (buf : List ChatMessage) (j : Nat) (request : ReviewRequest) (gk rk : Nat)
    (acc : List (List String)) (d : ReviewDecision) (e : String)
    (hvd : verdict rk (buildReviewMessages request) = .ok d)
    (hd : d.approved = false) (hreq : request.request_id = rid) (hlt : ¬ max ≤ j)
    (hg : gen gk (buf ++ [feedbackMessage d.feedback, ⟨Role.user, orig.user_prompt⟩])
            = .error e) :
    runReviewLoop gen verdict (fuel + 1) ⟨max, [(rid, (orig, buf))], [(rid, j)]⟩
        request gk rk acc
      = ⟨⟨max, [], [(rid, j + 1)]⟩, gk + 1, rk + 1, acc, none,
         .failed (.generationFailed (.providerFailure e))⟩ := by
  rw [runReviewLoop_succ, review_response_eq, hvd]
  dsimp only
  rw [if_neg (by simp [hd])]
  dsimp only
  rw [responseOf_rejected]
  dsimp only
  rw [handle_review_feedback_refine_fail (gen gk) max rid orig buf j
        ⟨request.request_id, d.approved, d.feedback⟩ e hreq hd hlt hg]
  simp

/-- One loop round whose verdict oracle fails (provider error or malformed
structured output): the turn fails with the reviewer's error and the
executor state untouched. -/
theorem runReviewLoop_step_review_fail
    (gen : Nat → List ChatMessage → Except String (List ChatMessage))
    (verdict : Nat → List ChatMessage → Except ReviewFailure ReviewDecision)
    (fuel : Nat) (st : PrimaryState) (request : ReviewRequest) (gk rk : Nat)
    (acc : List (List String)) (e : ReviewFailure)
    (hvd : verdict rk (buildReviewMessages request) = .error e) :
    runReviewLoop gen verdict (fuel + 1) st request gk rk acc
      = ⟨st, gk, rk + 1, acc, none, .failed (.reviewFailed e)⟩ := by
  rw [runReviewLoop_succ, review_response_eq, hvd]

/-- The driver `runTurn` unfolded one step. -/
theorem runTurn_eq
    (gen : Nat → List ChatMessage → Except String (List ChatMessage))
    (verdict : Nat → List ChatMessage → Except ReviewFailure ReviewDecision)
    (fuel : Nat) (st : PrimaryState) (request : PrimaryAgentRequest) :
    runTurn gen verdict fuel st request
      = match handle_user_request (gen 0) st request with
        | .err st1 e => ⟨st1, 1, 0, [], none, .failed (.generationFailed e)⟩
        | .ok st1 reviewReq => runReviewLoop gen verdict fuel st1 reviewReq 1 0 [] := rfl

/-! ## The terminal-state invariant of the review loop -/

/-- From a reachable singleton state (one pending entry and one counter entry
for the turn's request id, counter within the cap), any terminal resolution of
the review loop removes both entries and reads a counter value within the cap
at the moment of removal. -/
theorem runReviewLoop_singleton_terminal
    (gen : Nat → List ChatMessage → Except String (List ChatMessage))
    (verdict : Nat → List ChatMessage → Except ReviewFailure ReviewDecision)
    (fuel : Nat) :
    ∀ (max : Nat) (rid : String) (orig : PrimaryAgentRequest) (buf : List ChatMessage)
      (j : Nat) (request : ReviewRequest) (gk rk : Nat) (acc : List (List String))
      (o : TurnOutcome),
      runReviewLoop gen verdict fuel ⟨max, [(rid, (orig, buf))], [(rid, j)]⟩
          request gk rk acc = o →
      request.request_id = rid → j ≤ max →
      (o.status = .approved ∨ o.status = .forcedApproved) →
      (o.finalCount.isSome = true ∧ o.finalCount.getD 0 ≤ max)
        ∧ o.state.pending_requests = [] ∧ o.state.refinement_counts = [] := by
  induction fuel with
  | zero =>
    intro max rid orig buf j request gk rk acc o ho hreq hj hstat
    rw [runReviewLoop_zero] at ho
    subst ho
    simp at hstat
  | succ fuel ih =>
    intro max rid orig buf j request gk rk acc o ho hreq hj hstat
    cases hrv : verdict rk (buildReviewMessages request) with
    | error e =>
      rw [runReviewLoop_step_review_fail gen verdict fuel _ request gk rk acc e hrv] at ho
      subst ho
      simp at hstat
    | ok d =>
      by_cases hd : d.approved = true
      · rw [runReviewLoop_step_approved gen verdict fuel max rid orig buf j request
              gk rk acc d hrv hd hreq] at ho
        subst ho
        exact ⟨⟨rfl, by simpa using hj⟩, rfl, rfl⟩
      · have hd2 : d.approved = false := by simpa using hd
        by_cases hle : max ≤ j
        · rw [runReviewLoop_step_capped gen verdict fuel max rid orig buf j request
                gk rk acc d hrv hd2 hreq hle] at ho
          subst ho
          exact ⟨⟨rfl, by simpa using hj⟩, rfl, rfl⟩
        · cases hg : gen gk
              (buf ++ [feedbackMessage d.feedback, ⟨Role.user, orig.user_prompt⟩]) with
          | error e =>
            rw [runReviewLoop_step_refine_fail gen verdict fuel max rid orig buf j request
                  gk rk acc d e hrv hd2 hreq hle hg] at ho
            subst ho
            simp at hstat
          | ok cand =>
            rw [runReviewLoop_step_refine gen verdict fuel max rid orig buf j request
                  gk rk acc d cand hrv hd2 hreq hle hg] at ho
            exact ih max rid orig
              (buf ++ [feedbackMessage d.feedback, ⟨Role.user, orig.user_prompt⟩] ++ cand)
              (j + 1) ⟨rid, orig.user_prompt, orig.conversation_history, cand⟩
              (gk + 1) (rk + 1) acc o ho rfl (by omega) hstat

/-- A turn run on a fresh executor state that reaches a terminal resolution
leaves both tables empty and read a counter value within the cap at the
moment the pending entry was removed. -/
theorem runTurn_init_terminal
    (gen : Nat → List ChatMessage → Except String (List ChatMessage))
    (verdict : Nat → List ChatMessage → Except ReviewFailure ReviewDecision)
    (fuel max : Nat) (request : PrimaryAgentRequest) (o : TurnOutcome)
    (ho : runTurn gen verdict fuel (initState max) request = o)
    (hstat : o.status = .approved ∨ o.status = .forcedApproved) :
    (o.finalCount.isSome = true ∧ o.finalCount.getD 0 ≤ max)
      ∧ o.state.pending_requests = [] ∧ o.state.refinement_counts = [] := by
  rw [runTurn_eq] at ho
  cases hg : gen 0 (buildInitialMessages request) with
  | error e =>
    rw [handle_user_request_eq, hg] at ho
    dsimp only at ho
    subst ho
    simp at hstat
  | ok cand =>
    rw [handle_user_request_init (gen 0) max request cand hg] at ho
    dsimp only at ho
    exact runReviewLoop_singleton_terminal gen verdict fuel max request.request_id request
      (buildInitialMessages request ++ cand) 0
      ⟨request.request_id, request.user_prompt, request.conversation_history, cand⟩
      1 0 [] o ho rfl (Nat.zero_le max) hstat

/-! ## The reject-k-times-then-approve run of the review loop -/

/-- With a provider answering call `i` with `cand i` and a reviewer rejecting
every round before `k` and approving round `k`, the loop entered at round
`j = k - d` terminates with `k + 1` generation calls, `k + 1` review calls,
and exactly the `(k+1)`-th candidate's contents emitted. -/
theorem runReviewLoop_reject_then_approve
    (cand : Nat → List ChatMessage) (cfb : Nat → String) (k max : Nat) (hk : k < max)
    (orig : PrimaryAgentRequest) :
    ∀ (d j : Nat), j + d = k →
    ∀ (buf : List ChatMessage) (acc : List (List String)),
      runReviewLoop (fun i _ => .ok (cand i))
          (fun i _ => .ok ⟨i == k, cfb i⟩) (d + 1)
          ⟨max, [(orig.request_id, (orig, buf))], [(orig.request_id, j)]⟩
          ⟨orig.request_id, orig.user_prompt, orig.conversation_history, cand j⟩
          (j + 1) j acc
        = ⟨⟨max, [], []⟩, k + 1, k + 1,
           acc ++ [(cand k).map (fun m => m.text)], some k, .approved⟩ := by
  intro d
  induction d with
  | zero =>
    intro j hj buf acc
    have hjk : j = k := by omega
    subst hjk
    rw [runReviewLoop_step_approved (fun i _ => .ok (cand i))
          (fun i _ => .ok ⟨i == j, cfb i⟩) 0 max orig.request_id orig buf j
          ⟨orig.request_id, orig.user_prompt, orig.conversation_history, cand j⟩
          (j + 1) j acc ⟨j == j, cfb j⟩ rfl (by simp) rfl]
    simp [candidateContents]
  | succ d ihd =>
    intro j hj buf acc
    have hjk : j < k := by omega
    have hne : (j == k) = false := by simp [Nat.ne_of_lt hjk]
    rw [runReviewLoop_step_refine (fun i _ => .ok (cand i))
          (fun i _ => .ok ⟨i == k, cfb i⟩) (d + 1) max orig.request_id orig buf j
          ⟨orig.request_id, orig.user_prompt, orig.conversation_history, cand j⟩
          (j + 1) j acc ⟨j == k, cfb j⟩ (cand (j + 1)) rfl hne rfl (by omega) rfl]
    exact ihd (j + 1) (by omega)
      (buf ++ [feedbackMessage (cfb j), ⟨Role.user, orig.user_prompt⟩] ++ cand (j + 1)) acc

/-- The streaming `chat_async` in terms of the underlying workflow run. -/
theorem chat_async_of_runTurn
    (gen : Nat → List ChatMessage → Except String (List ChatMessage))
    (verdict : Nat → List ChatMessage → Except ReviewFailure ReviewDecision)
    (fuel max : Nat) (history : List ChatMessage) (rid prompt : String) (o : TurnOutcome)
    (ho : runTurn gen verdict fuel (initState max) ⟨rid, prompt, history⟩ = o) :
    chat_async gen verdict fuel max history rid prompt
      = match o.status with
        | .approved =>
          chatSuccess history prompt o
            (Frame.orchestratorPlan orchestratorPlanText :: tokenFrames o.events)
        | .forcedApproved =>
          chatSuccess history prompt o
            (Frame.orchestratorPlan orchestratorPlanText :: tokenFrames o.events)
        | .failed e =>
          ⟨.error e, history, Frame.orchestratorPlan orchestratorPlanText :: tokenFrames o.events⟩
        | .outOfFuel =>
          ⟨.error .engineStalled, history,
           Frame.orchestratorPlan orchestratorPlanText :: tokenFrames o.events⟩ := by
  subst ho
  rfl

/-! ## The claims -/

/-- C1: at the refinement cap with a rejecting verdict the turn terminates
with no further generation call (here exactly one generation and one review
call in total) — but, contrary to the claim, no payload at all is emitted to
the output stream (`events = []`; the reviewer only emits on approval, and
the forced-approval branch of `handle_review_feedback` returns without
emitting despite its own `Force emit the last response` comment), and the
streaming turn resolves to the empty string: the turn terminates silently.
This theorem evaluates the code at the failing input `maxRefinements = 0`,
provider answering "Hello!", reviewer rejecting the sole candidate. -/
theorem C1_forced_approval_emits_nothing :
    runTurn (fun _ _ => Except.ok [⟨Role.assistant, "Hello!"⟩])
        (fun _ _ => Except.ok ⟨false, "too short"⟩) 2 (initState 0) ⟨"r1", "hi", []⟩
      = ⟨initState 0, 1, 1, [], some 0, .forcedApproved⟩
    ∧ (chat_async (fun _ _ => Except.ok [⟨Role.assistant, "Hello!"⟩])
        (fun _ _ => Except.ok ⟨false, "too short"⟩) 2 0 [] "r1" "hi").result
      = .ok "" :=
  ⟨rfl, rfl⟩

/-- C2: with a reviewer that rejects rounds `0, …, k-1` and approves round
`k` (so `k` rejections then an approval, `k < maxRefinements`, `k = 0`
allowed), the turn makes exactly `k + 1` generation calls and `k + 1` review
calls, terminates `approved`, emits exactly the `(k+1)`-th candidate's
contents, and the text returned by the streaming turn is that candidate's
text. -/
theorem C2_k_rejections_then_approval
    (cand : Nat → List ChatMessage) (cfb : Nat → String) (k max : Nat) (hk : k < max)
    (rid prompt : String) (history : List ChatMessage) :
    runTurn (fun i _ => .ok (cand i)) (fun i _ => .ok ⟨i == k, cfb i⟩) (k + 1)
        (initState max) ⟨rid, prompt, history⟩
      = ⟨⟨max, [], []⟩, k + 1, k + 1, [(cand k).map (fun m => m.text)], some k, .approved⟩
    ∧ (chat_async (fun i _ => .ok (cand i)) (fun i _ => .ok ⟨i == k, cfb i⟩) (k + 1)
        max history rid prompt).result
      = .ok (extractText ((cand k).map (fun m => m.text))) := by
  have h1 : runTurn (fun i _ => .ok (cand i)) (fun i _ => .ok ⟨i == k, cfb i⟩) (k + 1)
      (initState max) ⟨rid, prompt, history⟩
      = ⟨⟨max, [], []⟩, k + 1, k + 1, [(cand k).map (fun m => m.text)], some k,
         .approved⟩ := by
    rw [runTurn_eq]
    rw [handle_user_request_init ((fun i _ => .ok (cand i)) 0) max
          ⟨rid, prompt, history⟩ (cand 0) rfl]
    dsimp only
    have h2 := runReviewLoop_reject_then_approve cand cfb k max hk ⟨rid, prompt, history⟩
      k 0 (by omega) (buildInitialMessages ⟨rid, prompt, history⟩ ++ cand 0) []
    simpa using h2
  refine ⟨h1, ?_⟩
  rw [chat_async_of_runTurn (fun i _ => .ok (cand i)) (fun i _ => .ok ⟨i == k, cfb i⟩)
        (k + 1) max history rid prompt _ h1]
  dsimp only
  simp [chatSuccess, streamText]

theorem C2_witness :
    (1 < 2)
    ∧ runTurn (fun i _ => .ok ([⟨Role.assistant, if i = 0 then "draft zero" else "draft one"⟩]))
        (fun i _ => .ok ⟨i == 1, "note"⟩) 2 (initState 2) ⟨"r1", "hi", []⟩
      = ⟨⟨2, [], []⟩, 2, 2, [["draft one"]], some 1, .approved⟩
    ∧ (chat_async
        (fun i _ => .ok ([⟨Role.assistant, if i = 0 then "draft zero" else "draft one"⟩]))
        (fun i _ => .ok ⟨i == 1, "note"⟩) 2 2 [] "r1" "hi").result
      = .ok "draft one" :=
  ⟨by decide,
   (C2_k_rejections_then_approval
      (fun i => [⟨Role.assistant, if i = 0 then "draft zero" else "draft one"⟩])
      (fun _ => "note") 1 2 (by decide) "r1" "hi" []).1,
   (C2_k_rejections_then_approval
      (fun i => [⟨Role.assistant, if i = 0 then "draft zero" else "draft one"⟩])
      (fun _ => "note") 1 2 (by decide) "r1" "hi" []).2⟩

/-- C4: a review response whose request id is not in the pending table makes
`handle_review_feedback` raise (the `ValueError` of the source, modelled as
`HandlerError.unknownRequestId` propagated to the caller) with the executor
state untouched: it is never silently ignored or treated as recoverable
input. -/
theorem C4_unknown_request_id_raises
    (gen : List ChatMessage → Except String (List ChatMessage))
    (st : PrimaryState) (review : ReviewResponse)
    (h : mlookup st.pending_requests review.request_id = none) :
    handle_review_feedback gen st review
      = .err st (.unknownRequestId review.request_id) := by
  rw [handle_review_feedback_eq, h]

theorem C4_witness :
    mlookup (initState 3).pending_requests "r9" = none
    ∧ handle_review_feedback (fun _ => Except.ok []) (initState 3) ⟨"r9", true, "fine"⟩
        = .err (initState 3) (.unknownRequestId "r9") :=
  ⟨rfl,
   C4_unknown_request_id_raises (fun _ => Except.ok []) (initState 3) ⟨"r9", true, "fine"⟩ rfl⟩

/-- C6: for every review call whose structured verdict decodes, the
reviewer's ordered output trace is fully determined by the verdict: on
approval the candidate's contents are emitted to the event stream strictly
before the acknowledgement is sent back to the generator, and in both cases
a `ReviewResponse` carrying the verdict is always sent. -/
theorem C6_emit_before_ack
    (getVerdict : List ChatMessage → Except ReviewFailure ReviewDecision)
    (request : ReviewRequest) (d : ReviewDecision) (outs : List ReviewerOutput)
    (hv : getVerdict (buildReviewMessages request) = .ok d)
    (h : review_response getVerdict request = .ok outs) :
    outs = (if d.approved then
             [ReviewerOutput.emit (candidateContents request),
              ReviewerOutput.respond ⟨request.request_id, d.approved, d.feedback⟩]
            else
             [ReviewerOutput.respond ⟨request.request_id, d.approved, d.feedback⟩])
    ∧ responseOf outs = some ⟨request.request_id, d.approved, d.feedback⟩ := by
  obtain ⟨d2, hv2, houts⟩ := review_response_shape getVerdict request outs h
  rw [hv] at hv2
  cases hv2
  subst houts
  refine ⟨rfl, ?_⟩
  by_cases hd : d.approved = true
  · rw [if_pos hd, responseOf_approved]
  · rw [if_neg (by simp [hd]), responseOf_rejected]

theorem C6_witness :
    [ReviewerOutput.emit ["ans"], ReviewerOutput.respond ⟨"r2", true, "good"⟩]
      = [ReviewerOutput.emit (candidateContents ⟨"r2", "q", [], [⟨Role.assistant, "ans"⟩]⟩),
         ReviewerOutput.respond ⟨"r2", true, "good"⟩]
    ∧ responseOf [ReviewerOutput.emit ["ans"], ReviewerOutput.respond ⟨"r2", true, "good"⟩]
        = some ⟨"r2", true, "good"⟩ :=
  C6_emit_before_ack (fun _ => Except.ok ⟨true, "good"⟩)
    ⟨"r2", "q", [], [⟨Role.assistant, "ans"⟩]⟩ ⟨true, "good"⟩
    [ReviewerOutput.emit ["ans"], ReviewerOutput.respond ⟨"r2", true, "good"⟩] rfl rfl

/-- C9 counterexample: a turn whose regeneration call fails after the first
rejection aborts mid-refinement with the pending entry already removed while
the incremented refinement counter entry survives: request id "r1" remains
in the counter map with no matching pending entry, contradicting the claim
that no request id ever remains in the counter map without one. -/
theorem C9_counterexample :
    runTurn
        (fun i _ => if i = 0 then Except.ok [⟨Role.assistant, "draft"⟩]
                    else Except.error "provider down")
        (fun _ _ => Except.ok ⟨false, "needs work"⟩) 3 (initState 1) ⟨"r1", "hi", []⟩
      = ⟨⟨1, [], [("r1", 1)]⟩, 2, 1, [], none,
         .failed (.generationFailed (.providerFailure "provider down"))⟩ := rfl

/-- C3: for every turn run on a fresh executor that reaches a terminal
resolution, the refinement counter read at the moment the pending entry is
removed exists and is at most `maxRefinements` (the lower bound 0 is inherent
in `Nat`); moreover the counter is created at 0 on the first generation, is
incremented by exactly one whenever a rejection triggers a regeneration, and
on an approval it is removed, never incremented. -/
theorem C3_refinement_counter_invariant
    (gen : Nat → List ChatMessage → Except String (List ChatMessage))
    (verdict : Nat → List ChatMessage → Except ReviewFailure ReviewDecision)
    (fuel max : Nat) (request : PrimaryAgentRequest) (o : TurnOutcome)
    (ho : runTurn gen verdict fuel (initState max) request = o)
    (hstat : o.status = .approved ∨ o.status = .forcedApproved) :
    (o.finalCount.isSome = true ∧ o.finalCount.getD 0 ≤ max)
    ∧ (∀ (g : List ChatMessage → Except String (List ChatMessage))
         (st : PrimaryState) (r : PrimaryAgentRequest) (st2 : PrimaryState)
         (rr : ReviewRequest),
        mlookup st.refinement_counts r.request_id = none →
        handle_user_request g st r = .ok st2 rr →
        mlookup st2.refinement_counts r.request_id = some 0)
    ∧ (∀ (g : List ChatMessage → Except String (List ChatMessage))
         (st : PrimaryState) (rv : ReviewResponse) (st2 : PrimaryState)
         (rr2 : ReviewRequest),
        handle_review_feedback g st rv = .ok st2 (some rr2) →
        rv.approved = false
        ∧ mlookup st2.refinement_counts rv.request_id
            = some ((mlookup st.refinement_counts rv.request_id).getD 0 + 1))
    ∧ (∀ (g : List ChatMessage → Except String (List ChatMessage))
         (st : PrimaryState) (rv : ReviewResponse) (st2 : PrimaryState),
        handle_review_feedback g st rv = .ok st2 none →
        rv.approved = true →
        st2.refinement_counts = merase st.refinement_counts rv.request_id) := by
  refine ⟨(runTurn_init_terminal gen verdict fuel max request o ho hstat).1, ?_, ?_, ?_⟩
  · intro g st r st2 rr hnone h2
    rw [handle_user_request_eq] at h2
    cases hg : g (buildInitialMessages r) with
    | error e => rw [hg] at h2; cases h2
    | ok cs =>
      rw [hg] at h2
      dsimp only at h2
      cases h2
      simp [hnone, mlookup_minsert_self]
  · intro g st rv st2 rr2 h2
    rw [handle_review_feedback_eq] at h2
    cases hp : mlookup st.pending_requests rv.request_id with
    | none => rw [hp] at h2; cases h2
    | some pr =>
      obtain ⟨orig, buf⟩ := pr
      rw [hp] at h2
      dsimp only at h2
      by_cases hap : rv.approved = true
      · rw [if_pos hap] at h2; cases h2
      · rw [if_neg hap] at h2
        by_cases hle : st.max_refinements
            ≤ (mlookup st.refinement_counts rv.request_id).getD 0
        · rw [if_pos hle] at h2; cases h2
        · rw [if_neg hle] at h2
          cases hg : g (buf ++ [feedbackMessage rv.feedback,
              ⟨Role.user, orig.user_prompt⟩]) with
          | error e => rw [hg] at h2; cases h2
          | ok cs =>
            rw [hg] at h2
            dsimp only at h2
            cases h2
            exact ⟨by simpa using hap, by simp [mlookup_minsert_self]⟩
  · intro g st rv st2 h2 hap
    rw [handle_review_feedback_eq] at h2
    cases hp : mlookup st.pending_requests rv.request_id with
    | none => rw [hp] at h2; cases h2
    | some pr =>
      obtain ⟨orig, buf⟩ := pr
      rw [hp] at h2
      dsimp only at h2
      rw [if_pos hap] at h2
      cases h2
      rfl

theorem C3_witness :
    ((runTurn (fun _ _ => Except.ok [⟨Role.assistant, "draft"⟩])
        (fun _ _ => Except.ok ⟨false, "poor"⟩) 3 (initState 1)
        ⟨"r7", "hello", []⟩).finalCount.isSome = true
      ∧ (runTurn (fun _ _ => Except.ok [⟨Role.assistant, "draft"⟩])
          (fun _ _ => Except.ok ⟨false, "poor"⟩) 3 (initState 1)
          ⟨"r7", "hello", []⟩).finalCount.getD 0 ≤ 1)
    ∧ mlookup ((⟨1, [("r7", (⟨"r7", "hello", []⟩,
          buildInitialMessages ⟨"r7", "hello", []⟩ ++ [⟨Role.assistant, "draft"⟩]))],
          [("r7", 0)]⟩ : PrimaryState)).refinement_counts "r7" = some 0
    ∧ ((⟨"r7", false, "poor"⟩ : ReviewResponse).approved = false
        ∧ mlookup ([("r7", 1)] : List (String × Nat)) "r7" = some 1)
    ∧ (([] : List (String × Nat))
        = merase ([("r7", 0)] : List (String × Nat)) "r7") := by
  have H := C3_refinement_counter_invariant
    (fun _ _ => Except.ok [⟨Role.assistant, "draft"⟩])
    (fun _ _ => Except.ok ⟨false, "poor"⟩) 3 1 ⟨"r7", "hello", []⟩ _ rfl (Or.inr rfl)
  refine ⟨H.1, ?_, ?_, ?_⟩
  · exact H.2.1 (fun _ => Except.ok [⟨Role.assistant, "draft"⟩]) (initState 1)
      ⟨"r7", "hello", []⟩
      ⟨1, [("r7", (⟨"r7", "hello", []⟩,
          buildInitialMessages ⟨"r7", "hello", []⟩ ++ [⟨Role.assistant, "draft"⟩]))],
       [("r7", 0)]⟩
      ⟨"r7", "hello", [], [⟨Role.assistant, "draft"⟩]⟩ rfl (by rfl)
  · exact H.2.2.1 (fun _ => Except.ok [⟨Role.assistant, "better"⟩])
      ⟨1, [("r7", (⟨"r7", "hello", []⟩, [⟨Role.user, "hello"⟩]))], [("r7", 0)]⟩
      ⟨"r7", false, "poor"⟩
      ⟨1, [("r7", (⟨"r7", "hello", []⟩,
          [⟨Role.user, "hello"⟩]
            ++ [feedbackMessage "poor", ⟨Role.user, "hello"⟩]
            ++ [⟨Role.assistant, "better"⟩]))],
       [("r7", 1)]⟩
      ⟨"r7", "hello", [], [⟨Role.assistant, "better"⟩]⟩ (by rfl)
  · exact H.2.2.2 (fun _ => Except.ok [])
      ⟨1, [("r7", (⟨"r7", "hello", []⟩, [⟨Role.user, "hello"⟩]))], [("r7", 0)]⟩
      ⟨"r7", true, "nice"⟩
      ⟨1, [], []⟩ (by rfl) rfl

/-- C5: one `chat_async` turn appends exactly one `(user, prompt)` and one
`(assistant, finalText)` pair to the conversation history when the workflow
reaches a successful terminal state (`APPROVED` or `FORCED_APPROVED`), and
leaves the history unchanged when the turn fails: the exception propagates
out of `chat_async` before the appends run. -/
theorem C5_history_append_once
    (gen : Nat → List ChatMessage → Except String (List ChatMessage))
    (verdict : Nat → List ChatMessage → Except ReviewFailure ReviewDecision)
    (fuel max : Nat) (history : List ChatMessage) (rid prompt : String) :
    (∀ t, (chat_async gen verdict fuel max history rid prompt).result = .ok t →
      (chat_async gen verdict fuel max history rid prompt).history
        = history ++ [⟨Role.user, prompt⟩, ⟨Role.assistant, t⟩])
    ∧ (∀ e, (chat_async gen verdict fuel max history rid prompt).result = .error e →
      (chat_async gen verdict fuel max history rid prompt).history = history) := by
  rw [chat_async_of_runTurn gen verdict fuel max history rid prompt _ rfl]
  cases hs : (runTurn gen verdict fuel (initState max) ⟨rid, prompt, history⟩).status with
  | approved =>
    refine ⟨fun t ht => ?_, fun e he => ?_⟩
    · simp only [chatSuccess] at ht ⊢
      cases ht
      rfl
    · simp only [chatSuccess] at he
      cases he
  | forcedApproved =>
    refine ⟨fun t ht => ?_, fun e he => ?_⟩
    · simp only [chatSuccess] at ht ⊢
      cases ht
      rfl
    · simp only [chatSuccess] at he
      cases he
  | failed e =>
    refine ⟨fun t ht => ?_, fun e2 he => ?_⟩
    · cases ht
    · rfl
  | outOfFuel =>
    refine ⟨fun t ht => ?_, fun e2 he => ?_⟩
    · cases ht
    · rfl

theorem C5_witness :
    (chat_async (fun _ _ => Except.ok [⟨Role.assistant, "Hi"⟩])
        (fun _ _ => Except.ok ⟨true, "ok"⟩) 1 0 [] "r3" "hello").history
      = [⟨Role.user, "hello"⟩, ⟨Role.assistant, "Hi"⟩]
    ∧ (chat_async (fun _ _ => Except.error "down")
        (fun _ _ => Except.ok ⟨true, "ok"⟩) 1 0 [] "r3" "hello").history = [] :=
  ⟨(C5_history_append_once (fun _ _ => Except.ok [⟨Role.assistant, "Hi"⟩])
      (fun _ _ => Except.ok ⟨true, "ok"⟩) 1 0 [] "r3" "hello").1 "Hi" rfl,
   (C5_history_append_once (fun _ _ => Except.error "down")
      (fun _ _ => Except.ok ⟨true, "ok"⟩) 1 0 [] "r3" "hello").2
     (.generationFailed (.providerFailure "down")) rfl⟩

/-- C7: the working-buffer discipline.  First round: the buffer handed to
the completion provider is the fixed system preamble, then the history
snapshot, then the user prompt; the produced candidate is appended and the
`(request, buffer)` pair is stored in the pending table in the very state
from which the candidate is handed to the reviewer, the produced review
request carrying exactly that candidate.  Retry: the buffer is the stored
prior buffer extended with the feedback directive and the restated user
prompt; the new candidate is appended, the pending entry is updated in the
state from which the reviewer is re-invoked, and the new review request
carries the new candidate. -/
theorem C7_working_buffer :
    (∀ (g : List ChatMessage → Except String (List ChatMessage))
       (st : PrimaryState) (r : PrimaryAgentRequest) (cand : List ChatMessage)
       (st2 : PrimaryState) (rr : ReviewRequest),
       g (buildInitialMessages r) = Except.ok cand →
       handle_user_request g st r = .ok st2 rr →
       mlookup st2.pending_requests r.request_id
           = some (r, buildInitialMessages r ++ cand)
         ∧ rr = ⟨r.request_id, r.user_prompt, r.conversation_history, cand⟩)
    ∧ (∀ (g : List ChatMessage → Except String (List ChatMessage))
       (st : PrimaryState) (rv : ReviewResponse) (orig : PrimaryAgentRequest)
       (buf cand : List ChatMessage) (st2 : PrimaryState) (rr2 : Option ReviewRequest),
       mlookup st.pending_requests rv.request_id = some (orig, buf) →
       rv.approved = false →
       (mlookup st.refinement_counts rv.request_id).getD 0 < st.max_refinements →
       g (buf ++ [feedbackMessage rv.feedback, ⟨Role.user, orig.user_prompt⟩])
           = Except.ok cand →
       handle_review_feedback g st rv = .ok st2 rr2 →
       mlookup st2.pending_requests rv.request_id
           = some (orig, buf ++ [feedbackMessage rv.feedback,
                                 ⟨Role.user, orig.user_prompt⟩] ++ cand)
         ∧ rr2 = some ⟨rv.request_id, orig.user_prompt,
                       orig.conversation_history, cand⟩) := by
  constructor
  · intro g st r cand st2 rr hg h2
    rw [handle_user_request_eq, hg] at h2
    dsimp only at h2
    cases h2
    exact ⟨by simp [mlookup_minsert_self], rfl⟩
  · intro g st rv orig buf cand st2 rr2 hp hap hlt hg h2
    rw [handle_review_feedback_eq, hp] at h2
    dsimp only at h2
    rw [if_neg (by simp [hap])] at h2
    rw [if_neg (by omega)] at h2
    rw [hg] at h2
    dsimp only at h2
    cases h2
    exact ⟨by simp [mlookup_minsert_self], rfl⟩

theorem C7_witness :
    (mlookup ((⟨2, [("w1", (⟨"w1", "p", []⟩,
          buildInitialMessages ⟨"w1", "p", []⟩ ++ [⟨Role.assistant, "a1"⟩]))],
          [("w1", 0)]⟩ : PrimaryState)).pending_requests "w1"
        = some (⟨"w1", "p", []⟩, buildInitialMessages ⟨"w1", "p", []⟩
            ++ [⟨Role.assistant, "a1"⟩])
      ∧ (⟨"w1", "p", [], [⟨Role.assistant, "a1"⟩]⟩ : ReviewRequest)
        = ⟨"w1", "p", [], [⟨Role.assistant, "a1"⟩]⟩)
    ∧ (mlookup ((⟨2, [("w1", (⟨"w1", "p", []⟩,
          [⟨Role.user, "p"⟩] ++ [feedbackMessage "fix", ⟨Role.user, "p"⟩]
            ++ [⟨Role.assistant, "a2"⟩]))],
          [("w1", 1)]⟩ : PrimaryState)).pending_requests "w1"
        = some (⟨"w1", "p", []⟩,
            [⟨Role.user, "p"⟩] ++ [feedbackMessage "fix", ⟨Role.user, "p"⟩]
              ++ [⟨Role.assistant, "a2"⟩])
      ∧ (some (⟨"w1", "p", [], [⟨Role.assistant, "a2"⟩]⟩ : ReviewRequest))
        = some ⟨"w1", "p", [], [⟨Role.assistant, "a2"⟩]⟩) :=
  ⟨C7_working_buffer.1 (fun _ => Except.ok [⟨Role.assistant, "a1"⟩])
      (initState 2) ⟨"w1", "p", []⟩ [⟨Role.assistant, "a1"⟩]
      ⟨2, [("w1", (⟨"w1", "p", []⟩,
          buildInitialMessages ⟨"w1", "p", []⟩ ++ [⟨Role.assistant, "a1"⟩]))],
       [("w1", 0)]⟩
      ⟨"w1", "p", [], [⟨Role.assistant, "a1"⟩]⟩ rfl (by rfl),
   C7_working_buffer.2 (fun _ => Except.ok [⟨Role.assistant, "a2"⟩])
      ⟨2, [("w1", (⟨"w1", "p", []⟩, [⟨Role.user, "p"⟩]))], [("w1", 0)]⟩
      ⟨"w1", false, "fix"⟩ ⟨"w1", "p", []⟩ [⟨Role.user, "p"⟩]
      [⟨Role.assistant, "a2"⟩]
      ⟨2, [("w1", (⟨"w1", "p", []⟩,
          [⟨Role.user, "p"⟩] ++ [feedbackMessage "fix", ⟨Role.user, "p"⟩]
            ++ [⟨Role.assistant, "a2"⟩]))],
       [("w1", 1)]⟩
      (some ⟨"w1", "p", [], [⟨Role.assistant, "a2"⟩]⟩)
      rfl rfl (by decide) rfl (by rfl)⟩

/-- C8: a failing provider call or a malformed structured verdict aborts the
turn as an error, never as a silent rejection.  A reviewer-side failure
(provider error or undecodable structured output) after the first candidate:
exactly one generation and one review call happen (no regeneration), the run
fails with that error, `chat_async` propagates it leaving the history
unchanged, and `ws_chat` broadcasts an `error` frame.  A primary
provider failure at the first generation call likewise fails the turn,
leaves the history unchanged and is broadcast as an `error` frame. -/
theorem C8_failures_abort_loudly
    (e : ReviewFailure) (m : String) (cand : List ChatMessage)
    (verdict : Nat → List ChatMessage → Except ReviewFailure ReviewDecision)
    (fuel max : Nat) (history : List ChatMessage) (rid prompt : String) :
    ((runTurn (fun _ _ => .ok cand) (fun _ _ => .error e) (fuel + 1) (initState max)
        ⟨rid, prompt, history⟩).genCalls = 1
      ∧ (runTurn (fun _ _ => .ok cand) (fun _ _ => .error e) (fuel + 1) (initState max)
          ⟨rid, prompt, history⟩).reviewCalls = 1
      ∧ (runTurn (fun _ _ => .ok cand) (fun _ _ => .error e) (fuel + 1) (initState max)
          ⟨rid, prompt, history⟩).status = .failed (.reviewFailed e)
      ∧ (chat_async (fun _ _ => .ok cand) (fun _ _ => .error e) (fuel + 1) max
          history rid prompt).result = .error (.reviewFailed e)
      ∧ (chat_async (fun _ _ => .ok cand) (fun _ _ => .error e) (fuel + 1) max
          history rid prompt).history = history
      ∧ ws_chat_frames (chat_async (fun _ _ => .ok cand) (fun _ _ => .error e) (fuel + 1)
            max history rid prompt)
        = (chat_async (fun _ _ => .ok cand) (fun _ _ => .error e) (fuel + 1) max
            history rid prompt).frames
          ++ [Frame.errorFrame (describeTurnError (.reviewFailed e))])
    ∧ (runTurn (fun _ _ => .error m) verdict fuel (initState max) ⟨rid, prompt, history⟩
        = ⟨initState max, 1, 0, [], none, .failed (.generationFailed (.providerFailure m))⟩
      ∧ (chat_async (fun _ _ => .error m) verdict fuel max history rid prompt).result
        = .error (.generationFailed (.providerFailure m))
      ∧ (chat_async (fun _ _ => .error m) verdict fuel max history rid prompt).history
        = history)
    ∧ (∀ (gen2 : Nat → List ChatMessage → Except String (List ChatMessage))
         (verdict2 : Nat → List ChatMessage → Except ReviewFailure ReviewDecision)
         (fuel2 : Nat) (st : PrimaryState) (req : ReviewRequest) (gk rk : Nat)
         (acc : List (List String)) (e2 : ReviewFailure),
        verdict2 rk (buildReviewMessages req) = .error e2 →
        runReviewLoop gen2 verdict2 (fuel2 + 1) st req gk rk acc
          = ⟨st, gk, rk + 1, acc, none, .failed (.reviewFailed e2)⟩)
    ∧ (∀ (gen2 : Nat → List ChatMessage → Except String (List ChatMessage))
         (verdict2 : Nat → List ChatMessage → Except ReviewFailure ReviewDecision)
         (fuel2 max2 : Nat) (history2 : List ChatMessage) (rid2 prompt2 : String)
         (e2 : TurnError),
        (runTurn gen2 verdict2 fuel2 (initState max2) ⟨rid2, prompt2, history2⟩).status
            = .failed e2 →
        (chat_async gen2 verdict2 fuel2 max2 history2 rid2 prompt2).result = .error e2
          ∧ (chat_async gen2 verdict2 fuel2 max2 history2 rid2 prompt2).history = history2
          ∧ ws_chat_frames (chat_async gen2 verdict2 fuel2 max2 history2 rid2 prompt2)
            = (chat_async gen2 verdict2 fuel2 max2 history2 rid2 prompt2).frames
              ++ [Frame.errorFrame (describeTurnError e2)]) := by
  refine ⟨⟨rfl, rfl, rfl, rfl, rfl, rfl⟩, ⟨rfl, rfl, rfl⟩, ?_, ?_⟩
  · intro gen2 verdict2 fuel2 st req gk rk acc e2 hvd
    exact runReviewLoop_step_review_fail gen2 verdict2 fuel2 st req gk rk acc e2 hvd
  · intro gen2 verdict2 fuel2 max2 history2 rid2 prompt2 e2 hfail
    rw [chat_async_of_runTurn gen2 verdict2 fuel2 max2 history2 rid2 prompt2 _ rfl]
    rw [hfail]
    exact ⟨rfl, rfl, rfl⟩

theorem C8_witness :
    runReviewLoop (fun _ _ => Except.ok []) (fun _ _ => Except.error (.malformedVerdict "oops"))
        1 (initState 4) ⟨"r8", "q", [], []⟩ 1 0 []
      = ⟨initState 4, 1, 1, [], none, .failed (.reviewFailed (.malformedVerdict "oops"))⟩
    ∧ ((chat_async (fun _ _ => Except.error "boom")
          (fun _ _ => Except.error (.malformedVerdict "oops")) 1 2 [] "r8" "q").result
        = Except.error (.generationFailed (.providerFailure "boom"))
      ∧ (chat_async (fun _ _ => Except.error "boom")
          (fun _ _ => Except.error (.malformedVerdict "oops")) 1 2 [] "r8" "q").history = []
      ∧ ws_chat_frames (chat_async (fun _ _ => Except.error "boom")
            (fun _ _ => Except.error (.malformedVerdict "oops")) 1 2 [] "r8" "q")
        = (chat_async (fun _ _ => Except.error "boom")
            (fun _ _ => Except.error (.malformedVerdict "oops")) 1 2 [] "r8" "q").frames
          ++ [Frame.errorFrame (describeTurnError
                (.generationFailed (.providerFailure "boom")))]) := by
  have H := C8_failures_abort_loudly (.malformedVerdict "oops") "boom" []
    (fun _ _ => Except.error (.malformedVerdict "oops")) 0 2 [] "r8" "q"
  exact ⟨H.2.2.1 (fun _ _ => Except.ok []) (fun _ _ => Except.error (.malformedVerdict "oops"))
      0 (initState 4) ⟨"r8", "q", [], []⟩ 1 0 [] (.malformedVerdict "oops") rfl,
    H.2.2.2 (fun _ _ => Except.error "boom")
      (fun _ _ => Except.error (.malformedVerdict "oops")) 1 2 [] "r8" "q"
      (.generationFailed (.providerFailure "boom")) rfl⟩

/-- C9 (amended): on a terminal resolution (approved or forced-approved) the
pending entry and the counter entry are removed together — afterwards the
request id is in neither map.  However, when the turn aborts because the
completion provider fails during a refinement regeneration, the pending
entry has already been popped while the incremented counter entry remains:
a request id can survive in the counter map with no matching pending entry,
exactly as in the counterexample. -/
theorem C9_amended_cleanup
    (gen : Nat → List ChatMessage → Except String (List ChatMessage))
    (verdict : Nat → List ChatMessage → Except ReviewFailure ReviewDecision)
    (fuel max : Nat) (request : PrimaryAgentRequest) (o : TurnOutcome)
    (ho : runTurn gen verdict fuel (initState max) request = o) :
    ((o.status = .approved ∨ o.status = .forcedApproved) →
       mlookup o.state.pending_requests request.request_id = none
       ∧ mlookup o.state.refinement_counts request.request_id = none)
    ∧ (∀ (g : List ChatMessage → Except String (List ChatMessage))
         (st : PrimaryState) (rv : ReviewResponse) (st2 : PrimaryState) (msg : String),
        handle_review_feedback g st rv = .err st2 (.providerFailure msg) →
        (st.pending_requests.map Prod.fst).Nodup →
        mlookup st2.pending_requests rv.request_id = none
        ∧ mlookup st2.refinement_counts rv.request_id
            = some ((mlookup st.refinement_counts rv.request_id).getD 0 + 1)) := by
  constructor
  · intro hstat
    obtain ⟨-, hp, hc⟩ := runTurn_init_terminal gen verdict fuel max request o ho hstat
    rw [hp, hc]
    exact ⟨rfl, rfl⟩
  · intro g st rv st2 msg h2 hnd
    rw [handle_review_feedback_eq] at h2
    cases hp : mlookup st.pending_requests rv.request_id with
    | none => rw [hp] at h2; cases h2
    | some pr =>
      obtain ⟨orig, buf⟩ := pr
      rw [hp] at h2
      dsimp only at h2
      by_cases hap : rv.approved = true
      · rw [if_pos hap] at h2; cases h2
      · rw [if_neg hap] at h2
        by_cases hle : st.max_refinements
            ≤ (mlookup st.refinement_counts rv.request_id).getD 0
        · rw [if_pos hle] at h2; cases h2
        · rw [if_neg hle] at h2
          cases hg : g (buf ++ [feedbackMessage rv.feedback,
              ⟨Role.user, orig.user_prompt⟩]) with
          | ok cs => rw [hg] at h2; cases h2
          | error e2 =>
            rw [hg] at h2
            dsimp only at h2
            cases h2
            exact ⟨mlookup_merase_self st.pending_requests rv.request_id hnd,
                   mlookup_minsert_self st.refinement_counts rv.request_id _⟩

theorem C9_amended_witness :
    (mlookup (runTurn (fun _ _ => Except.ok [⟨Role.assistant, "fine"⟩])
        (fun _ _ => Except.ok ⟨true, "good"⟩) 1 (initState 2)
        ⟨"r4", "q", []⟩).state.pending_requests "r4" = none
      ∧ mlookup (runTurn (fun _ _ => Except.ok [⟨Role.assistant, "fine"⟩])
          (fun _ _ => Except.ok ⟨true, "good"⟩) 1 (initState 2)
          ⟨"r4", "q", []⟩).state.refinement_counts "r4" = none)
    ∧ (mlookup (([] : List (String × (PrimaryAgentRequest × List ChatMessage)))) "r5" = none
      ∧ mlookup ([("r5", 1)] : List (String × Nat)) "r5" = some 1) := by
  have H := C9_amended_cleanup (fun _ _ => Except.ok [⟨Role.assistant, "fine"⟩])
    (fun _ _ => Except.ok ⟨true, "good"⟩) 1 2 ⟨"r4", "q", []⟩ _ rfl
  refine ⟨H.1 (Or.inl rfl), ?_⟩
  exact H.2 (fun _ => Except.error "down")
    ⟨1, [("r5", (⟨"r5", "q", []⟩, []))], []⟩ ⟨"r5", false, "f"⟩
    ⟨1, [], [("r5", 1)]⟩ "down" rfl (by simp)

/-! ### Lemmas about an event stream with no text content -/

theorem extractText_of_all_empty (cs : List String)
    (h : ∀ s ∈ cs, s.isEmpty = true) : extractText cs = "" := by
  unfold extractText
  have hfe : cs.filter (fun s => ¬ s.isEmpty) = [] := by
    rw [List.filter_eq_nil_iff]
    intro a ha
    simp [h a ha]
  rw [hfe]
  rfl

theorem streamText_of_all_empty (events : List (List String))
    (h : ∀ cs ∈ events, ∀ s ∈ cs, s.isEmpty = true) : streamText events = "" := by
  unfold streamText
  apply extractText_of_all_empty
  intro s hs
  rw [List.mem_flatten] at hs
  obtain ⟨cs, hcs, hsc⟩ := hs
  exact h cs hcs s hsc

theorem tokenFrames_of_all_empty (events : List (List String))
    (h : ∀ cs ∈ events, ∀ s ∈ cs, s.isEmpty = true) : tokenFrames events = [] := by
  induction events with
  | nil => rfl
  | cons cs rest ih =>
    have h1 : cs.filter (fun s => ¬ s.isEmpty) = [] := by
      rw [List.filter_eq_nil_iff]
      intro a ha
      simp [h cs (by simp) a ha]
    have h2 : tokenFrames rest = [] := ih (fun cs2 hcs2 => h cs2 (by simp [hcs2]))
    unfold tokenFrames at h2 ⊢
    rw [List.map_cons, List.flatten_cons, h1, List.map_nil, List.nil_append, h2]

/-- C10: in streaming mode, when the workflow run reaches a terminal state
but no event carries any non-empty text (as in a forced-approval turn, where
nothing at all is emitted), `chat_async` returns the empty string, the
frames broadcast are just the opening orchestrator frame — in particular no
`final_result` frame, since that broadcast is guarded on non-empty text —
and the `(user, prompt)`, `(assistant, "")` pair is nevertheless appended to
the conversation history. -/
theorem C10_empty_stream_turn
    (gen : Nat → List ChatMessage → Except String (List ChatMessage))
    (verdict : Nat → List ChatMessage → Except ReviewFailure ReviewDecision)
    (fuel max : Nat) (history : List ChatMessage) (rid prompt : String)
    (o : TurnOutcome)
    (ho : runTurn gen verdict fuel (initState max) ⟨rid, prompt, history⟩ = o)
    (hstat : o.status = .approved ∨ o.status = .forcedApproved)
    (hempty : ∀ cs ∈ o.events, ∀ s ∈ cs, s.isEmpty = true) :
    (chat_async gen verdict fuel max history rid prompt).result = .ok ""
    ∧ (chat_async gen verdict fuel max history rid prompt).frames
        = [Frame.orchestratorPlan orchestratorPlanText]
    ∧ (chat_async gen verdict fuel max history rid prompt).history
        = history ++ [⟨Role.user, prompt⟩, ⟨Role.assistant, ""⟩] := by
  have htext : streamText o.events = "" := streamText_of_all_empty o.events hempty
  have htok : tokenFrames o.events = [] := tokenFrames_of_all_empty o.events hempty
  rw [chat_async_of_runTurn gen verdict fuel max history rid prompt o ho]
  rcases hstat with h | h <;> rw [h] <;> dsimp only <;>
    simp [chatSuccess, htext, htok, String.isEmpty]

theorem C10_witness :
    (chat_async (fun _ _ => Except.ok [⟨Role.assistant, "Greetings"⟩])
        (fun _ _ => Except.ok ⟨false, "no"⟩) 2 0 [] "r6" "hey").result = .ok ""
    ∧ (chat_async (fun _ _ => Except.ok [⟨Role.assistant, "Greetings"⟩])
        (fun _ _ => Except.ok ⟨false, "no"⟩) 2 0 [] "r6" "hey").frames
      = [Frame.orchestratorPlan orchestratorPlanText]
    ∧ (chat_async (fun _ _ => Except.ok [⟨Role.assistant, "Greetings"⟩])
        (fun _ _ => Except.ok ⟨false, "no"⟩) 2 0 [] "r6" "hey").history
      = [⟨Role.user, "hey"⟩, ⟨Role.assistant, ""⟩] := by
  have H := C10_empty_stream_turn (fun _ _ => Except.ok [⟨Role.assistant, "Greetings"⟩])
    (fun _ _ => Except.ok ⟨false, "no"⟩) 2 0 [] "r6" "hey" _ rfl (Or.inr rfl)
    (by intro cs hcs; simp only [show (runTurn (fun _ _ => Except.ok [⟨Role.assistant, "Greetings"⟩])
          (fun _ _ => Except.ok ⟨false, "no"⟩) 2 (initState 0) ⟨"r6", "hey", []⟩).events
        = [] from rfl] at hcs; cases hcs)
  exact ⟨H.1, H.2.1, H.2.2⟩

end ReflectionWorkflow
